import Mathlib

/-!
Shallow embedding of `roam_unofficial/roam.py`, the single-module client for
the Roam chat service.  The embedding follows the source line by line:

* Python exceptions become values of `PyErr`; fallible operations return
  `Except PyErr α`.
* Decoded JSON response bodies become values of the inductive `Json`.
* The `Roam` class becomes a structure; its constructor (`Roam.init`),
  `send_message`, `list_channels`, `test_connection` and the `notify`
  decorator become functions over that structure.  Network transmission is
  modelled by the `.ok` payload a function returns: `.ok p` means exactly one
  POST carrying payload `p` is issued; `.error e` means the Python call raised
  `e` at that point and the function's own request was not issued.
* Wall-clock timestamps (`dt.datetime.now().strftime(...)`) are passed in as
  opaque string parameters, since the embedding is pure.
* Python's `str.format` is embedded for the feature subset the module uses:
  named replacement fields `\x7bname\x7d`, the escapes `\x7b\x7b` and
  `\x7d\x7d`, `KeyError` on a missing name, `IndexError` on empty or numeric
  (positional) fields, and `ValueError` on unbalanced braces.  Conversion and
  format-spec suffixes (`!r`, `:>10`) and attribute/index field access are not
  used by the module's templates and are not modelled.
-/

namespace RoamSpec

/-- Python exception values raised by the module. -/
inductive PyErr where
  | valueError (msg : String)
  | keyError (key : String)
  | typeError (msg : String)
  | indexError (msg : String)
deriving DecidableEq, Repr

/-- `str(e)` for the exceptions above: `ValueError`/`TypeError`/`IndexError`
print their message, `KeyError` prints the quoted key. -/
def pyStr : PyErr → String
  | .valueError m => m
  | .typeError m => m
  | .indexError m => m
  | .keyError k => "\x27" ++ k ++ "\x27"

/-- Decoded JSON values (`json.loads` results).  Numbers are modelled as
integers; none of the claims inspects a fractional number. -/
inductive Json where
  | null
  | bool (b : Bool)
  | num (n : Int)
  | str (s : String)
  | arr (elems : List Json)
  | obj (fields : List (String × Json))

/-- First-match lookup in an association list (decoded JSON objects have
unique keys, so first-match agrees with Python dict lookup). -/
def lookupJson (d : List (String × Json)) (k : String) : Option Json :=
  match d with
  | [] => none
  | p :: rest => if p.1 = k then some p.2 else lookupJson rest k

/-- First-match lookup in a string-valued association list. -/
def lookupKey (m : List (String × String)) (k : String) : Option String :=
  match m with
  | [] => none
  | p :: rest => if p.1 = k then some p.2 else lookupKey rest k

/-- Python dict assignment `d[k] = v`: update in place if the key exists,
otherwise append. -/
def dictSet (d : List (String × String)) (k v : String) :
    List (String × String) :=
  if d.any (fun p => p.1 = k) then
    d.map (fun p => if p.1 = k then (k, v) else p)
  else d ++ [(k, v)]

/-- Python dict merge `a |= b`: right operand wins on key collision, new keys
append in order. -/
def dictMerge (a b : List (String × String)) : List (String × String) :=
  b.foldl (fun acc p => dictSet acc p.1 p.2) a

/-- The runtime value passed for the constructor's `channels` argument, with
enough Python types to distinguish `isinstance(channels, list)` from the
wider class of sequence types (`tuple`, `str` are sequences but not lists). -/
inductive PyChannels where
  | pynone
  | pylist (xs : List String)
  | pytuple (xs : List String)
  | pystr (s : String)
  | pyint (n : Int)
deriving DecidableEq, Repr

/-- `isinstance(v, list)`. -/
def isinstanceList : PyChannels → Bool
  | .pylist _ => true
  | _ => false

/-- Membership in Python's sequence types (`list`, `tuple`, `str`). -/
def isSequencePy : PyChannels → Bool
  | .pylist _ => true
  | .pytuple _ => true
  | .pystr _ => true
  | _ => false

/-- The `Roam` client state after construction: bot identity, prerendered
headers, and the optional default channel list (`self.channels`). -/
structure Roam where
  bot_name : String
  bot_id : String
  image_url : String
  token : String
  headers : List (String × String)
  channels : Option (List String)
deriving DecidableEq, Repr

/-- The three base headers built in `__init__`. -/
def baseHeaders (token : String) : List (String × String) :=
  [("Content-Type", "application/json"),
   ("Accept", "application/json"),
   ("Authorization", "Bearer " ++ token)]

/-- `Roam.__init__`: stores the identity fields, prerenders headers (caller
overrides merged on top), and validates `channels`: a `list` is stored, `None`
is stored as no-defaults, anything else raises
`ValueError("Channels can only be passed as a list.")`. -/
def Roam.init (bot_name bot_id image_url token : String)
    (headers : Option (List (String × String)))
    (channels : PyChannels) : Except PyErr Roam :=
  let hdrs :=
    match headers with
    | none => baseHeaders token
    | some h => dictMerge (baseHeaders token) h
  match channels with
  | .pylist xs =>
      .ok { bot_name, bot_id, image_url, token, headers := hdrs,
            channels := some xs }
  | .pynone =>
      .ok { bot_name, bot_id, image_url, token, headers := hdrs,
            channels := none }
  | _ => .error (.valueError "Channels can only be passed as a list.")

/-- `list(set(xs))`: the same elements with duplicates collapsed.  CPython's
iteration order over a `set` is unspecified; the model keeps the last
occurrence of each element, and the theorems below only use membership and
duplicate-freeness, which are order-independent. -/
def pySetList : List String → List String
  | [] => []
  | x :: rest => if x ∈ rest then pySetList rest else x :: pySetList rest

/-- The JSON payload POSTed by `send_message`: the prerendered `self.base`
sender block, the text, and the resolved recipients (`None` encodes to JSON
`null`). -/
structure Payload where
  sender_id : String
  sender_name : String
  sender_imageUrl : String
  text : String
  recipients : Option (List String)
deriving DecidableEq, Repr

/-- `Roam.send_message`: builds the payload from `self.base` and the message,
then resolves recipients exactly as the source does:
if the call-site `channels` is `None`, `channels = self.channels` (even when
that is also `None` — the POST is then issued with `recipients: null`);
otherwise, if `self.channels` is not `None`, the two lists are merged through
`list(set([*self.channels, *channels]))`; otherwise
`ValueError("No Channel passed at init or during message building.")` is
raised before any request.  `.ok p` models the single POST carrying `p`. -/
def send_message (self : Roam) (message : String)
    (channels : Option (List String)) : Except PyErr Payload :=
  match channels with
  | none =>
      .ok { sender_id := self.bot_id, sender_name := self.bot_name,
            sender_imageUrl := self.image_url, text := message,
            recipients := self.channels }
  | some cs =>
      match self.channels with
      | some sc =>
          .ok { sender_id := self.bot_id, sender_name := self.bot_name,
                sender_imageUrl := self.image_url, text := message,
                recipients := some (pySetList (sc ++ cs)) }
      | none =>
          .error (.valueError
            "No Channel passed at init or during message building.")

/-- `RoamGroup(channel)`: a `TypedDict` call is a plain `dict` construction,
copying the decoded object's fields verbatim with no field validation.  A
non-object JSON element raises `TypeError` (the `dict`-from-pair-sequence
corner of Python's `dict()` is not exercised by the API's response shape and
is not modelled). -/
def roamGroupOfJson : Json → Except PyErr (List (String × Json))
  | .obj fields => .ok fields
  | _ => .error (.typeError "cannot convert value to RoamGroup")

/-- The list comprehension `[RoamGroup(channel) for channel in channels]`,
stopping at the first element that raises. -/
def roamGroupsOf : List Json → Except PyErr (List (List (String × Json)))
  | [] => .ok []
  | c :: rest =>
      match roamGroupOfJson c with
      | .error e => .error e
      | .ok g =>
          match roamGroupsOf rest with
          | .error e => .error e
          | .ok gs => .ok (g :: gs)

/-- `Roam.list_channels` applied to the decoded response body: a JSON array
maps element-wise into `RoamGroup` records; any other decoded value raises
`ValueError("Unexpected Response from Roam Server")`. -/
def list_channels (body : Json) :
    Except PyErr (List (List (String × Json))) :=
  match body with
  | .arr elems => roamGroupsOf elems
  | _ => .error (.valueError "Unexpected Response from Roam Server")

/-- Python `v == "ok"` for a decoded JSON value `v`: true exactly when `v` is
the string `"ok"`. -/
def pyEqStrOk : Json → Bool
  | .str s => s == "ok"
  | _ => false

/-- `Roam.test_connection` applied to the decoded health-endpoint object:
`resp.get("status") == "ok"` (a missing key gives `None`, and
`None == "ok"` is `False`). -/
def test_connection (resp : List (String × Json)) : Bool :=
  match lookupJson resp "status" with
  | some v => pyEqStrOk v
  | none => false

/-- Scanner state for the embedded `str.format`: in literal text, just after
an unmatched `\x7b`, just after an unmatched `\x7d`, or inside a replacement
field accumulating its name (in reverse). -/
inductive FmtState where
  | literal
  | sawOpen
  | sawClose
  | inName (nm : List Char)

/-- One left-to-right pass of Python's `str.format` over the template's
characters, restricted to the feature subset described in the module header:
`\x7b\x7b` and `\x7d\x7d` emit a brace, `\x7bname\x7d` substitutes
`m[name]` (raising `KeyError(name)` when absent), an empty or all-digit field
is a positional reference and raises `IndexError` because `format` is always
called with keyword arguments only, and unbalanced braces raise
`ValueError`. -/
def pyFormatAux : List Char → FmtState → List (String × String) → String →
    Except PyErr String
  | [], .literal, _, acc => .ok acc
  | [], .sawOpen, _, _ =>
      .error (.valueError "Single open brace encountered in format string")
  | [], .sawClose, _, _ =>
      .error (.valueError "Single close brace encountered in format string")
  | [], .inName _, _, _ =>
      .error (.valueError "expected close brace before end of string")
  | c :: rest, .literal, m, acc =>
      if c = '{' then pyFormatAux rest .sawOpen m acc
      else if c = '}' then pyFormatAux rest .sawClose m acc
      else pyFormatAux rest .literal m (acc.push c)
  | c :: rest, .sawOpen, m, acc =>
      if c = '{' then pyFormatAux rest .literal m (acc.push '{')
      else if c = '}' then
        .error (.indexError "Replacement index 0 out of range")
      else pyFormatAux rest (.inName [c]) m acc
  | c :: rest, .sawClose, m, acc =>
      if c = '}' then pyFormatAux rest .literal m (acc.push '}')
      else .error (.valueError "Single close brace encountered in format string")
  | c :: rest, .inName nm, m, acc =>
      if c = '}' then
        if (nm.reverse).all Char.isDigit then
          .error (.indexError "Replacement index out of range")
        else
          match lookupKey m ⟨nm.reverse⟩ with
          | none => .error (.keyError (⟨nm.reverse⟩ : String))
          | some v => pyFormatAux rest .literal m (acc ++ v)
      else if c = '{' then
        .error (.valueError "unexpected open brace in field name")
      else pyFormatAux rest (.inName (c :: nm)) m acc

/-- `template.format(**m)` over the string-rendered mapping `m`. -/
def pyFormat (template : String) (m : List (String × String)) :
    Except PyErr String :=
  pyFormatAux template.toList .literal m ""

/-- Whether any caller keyword argument reuses one of the built-in variable
names passed alongside it. -/
def kwCollision (kwargs builtins : List (String × String)) : Bool :=
  kwargs.any (fun p => builtins.any (fun q => q.1 = p.1))

/-- The call `template.format(**kwargs, func_start_time=..., ...)`: Python
first builds the keyword-argument dict, raising `TypeError` if a caller
keyword collides with a built-in name, then formats over the combined
mapping. -/
def formatCall (template : String) (kwargs builtins : List (String × String)) :
    Except PyErr String :=
  if kwCollision kwargs builtins then
    .error (.typeError "got multiple values for keyword argument")
  else pyFormat template (kwargs ++ builtins)

/-- The built-in variables of the success-path `format` call, in source
order: start time, end time, `func_exception="DID NOT FAIL"`, function
name. -/
def succBuiltins (fname func_start_time func_end_time : String) :
    List (String × String) :=
  [("func_start_time", func_start_time),
   ("func_end_time", func_end_time),
   ("func_exception", "DID NOT FAIL"),
   ("func_name", fname)]

/-- The built-in variables of the failure-path `format` call, in source
order: start time, `func_end_time="DID NOT COMPLETE"`, the stringified caught
exception, function name. -/
def failBuiltins (fname func_start_time : String) (e : PyErr) :
    List (String × String) :=
  [("func_start_time", func_start_time),
   ("func_end_time", "DID NOT COMPLETE"),
   ("func_exception", pyStr e),
   ("func_name", fname)]

/-- The `except Exception as e:` handler of the wrapped function: format the
failure template over the keyword arguments plus the failure built-ins, send
it, then `raise e`.  A formatting or send error raised inside the handler
propagates in place of `e` (it is not caught again). -/
def notifyFail (self : Roam) (message : String)
    (channels : Option (List String)) (fname : String)
    (kwargs : List (String × String)) (func_start_time : String) (e : PyErr) :
    List Payload × Except PyErr String :=
  match formatCall message kwargs (failBuiltins fname func_start_time e) with
  | .error e2 => ([], .error e2)
  | .ok msg =>
      match send_message self msg channels with
      | .error e2 => ([], .error e2)
      | .ok p => ([p], .error e)

/-- One invocation of the callable produced by `Roam.notify(message,
channels, message_success)` applied to `func`.  `func` abstracts the wrapped
callable's body: given the positional and keyword arguments it either returns
a value or raises.  The two timestamps are the wall-clock strings the wrapper
would record.  The result pairs the payloads actually POSTed (in order) with
the call's outcome (`.ok` return value or `.error` raised exception).  The
whole success path — including the success-template `format` and its
`send_message` — runs inside the `try:` block, so an exception raised there is
caught by the same handler and triggers the failure notification before being
re-raised. -/
def notifyRun (self : Roam) (message : String)
    (channels : Option (List String)) (message_success : Option String)
    (fname : String)
    (func : List String → List (String × String) → Except PyErr String)
    (args : List String) (kwargs : List (String × String))
    (func_start_time func_end_time : String) :
    List Payload × Except PyErr String :=
  match func args kwargs with
  | .error e => notifyFail self message channels fname kwargs func_start_time e
  | .ok val =>
      match message_success with
      | none => ([], .ok val)
      | some ms =>
          match formatCall ms kwargs
              (succBuiltins fname func_start_time func_end_time) with
          | .error e =>
              notifyFail self message channels fname kwargs func_start_time e
          | .ok msg =>
              match send_message self msg channels with
              | .error e =>
                  notifyFail self message channels fname kwargs func_start_time e
              | .ok p => ([p], .ok val)

/-! ### Helper lemmas about the embedded operations -/

theorem mem_pySetList (x : String) (l : List String) :
    x ∈ pySetList l ↔ x ∈ l := by
  induction l with
  | nil => simp [pySetList]
  | cons y rest ih =>
      by_cases h : y ∈ rest
      · rw [pySetList, if_pos h, ih, List.mem_cons]
        constructor
        · exact Or.inr
        · rintro (rfl | hx)
          · exact h
          · exact hx
      · rw [pySetList, if_neg h]
        simp [ih]

theorem nodup_pySetList (l : List String) : (pySetList l).Nodup := by
  induction l with
  | nil => simp [pySetList]
  | cons y rest ih =>
      by_cases h : y ∈ rest
      · rw [pySetList, if_pos h]; exact ih
      · rw [pySetList, if_neg h]
        exact List.nodup_cons.mpr ⟨fun hy => h ((mem_pySetList _ _).1 hy), ih⟩

theorem lookupKey_append_none (a b : List (String × String)) (k : String)
    (ha : lookupKey a k = none) (hb : lookupKey b k = none) :
    lookupKey (a ++ b) k = none := by
  induction a with
  | nil => simpa using hb
  | cons p rest ih =>
      rw [lookupKey] at ha
      rw [List.cons_append, lookupKey]
      by_cases h : p.1 = k
      · rw [if_pos h] at ha; exact absurd ha (by simp)
      · rw [if_neg h] at ha
        rw [if_neg h]
        exact ih ha

theorem roamGroupsOf_obj (fs : List (List (String × Json))) :
    roamGroupsOf (fs.map Json.obj) = .ok fs := by
  induction fs with
  | nil => rfl
  | cons f rest ih => simp [roamGroupsOf, roamGroupOfJson, ih]

theorem pyFormatAux_literal_prefix (pre rest : List Char)
    (m : List (String × String)) (acc : List Char)
    (hpre : ∀ c ∈ pre, c ≠ '{' ∧ c ≠ '}') :
    pyFormatAux (pre ++ rest) .literal m ⟨acc⟩ =
      pyFormatAux rest .literal m ⟨acc ++ pre⟩ := by
  induction pre generalizing acc with
  | nil => simp
  | cons c cs ih =>
      have h := hpre c (by simp)
      rw [List.cons_append, pyFormatAux, if_neg h.1, if_neg h.2]
      have hpush : (⟨acc⟩ : String).push c = ⟨acc ++ [c]⟩ := rfl
      rw [hpush, ih (acc ++ [c]) (fun d hd => hpre d (by simp [hd]))]
      simp

theorem pyFormatAux_inName (cs : List Char) (nm rest : List Char)
    (m : List (String × String)) (acc : String)
    (hcs : ∀ c ∈ cs, c ≠ '{' ∧ c ≠ '}') :
    pyFormatAux (cs ++ '}' :: rest) (.inName nm) m acc =
      (if (nm.reverse ++ cs).all Char.isDigit then
        Except.error (.indexError "Replacement index out of range")
      else
        match lookupKey m ⟨nm.reverse ++ cs⟩ with
        | none => Except.error (.keyError (⟨nm.reverse ++ cs⟩ : String))
        | some v => pyFormatAux rest .literal m (acc ++ v)) := by
  induction cs generalizing nm with
  | nil => simp [pyFormatAux]
  | cons c cs ih =>
      have h := hcs c (by simp)
      rw [List.cons_append, pyFormatAux, if_neg h.2, if_neg h.1]
      rw [ih (c :: nm) (fun d hd => hcs d (by simp [hd]))]
      simp [List.append_assoc]

theorem pyFormat_missing_name (ms name : String) (pre suf : List Char)
    (m : List (String × String))
    (htempl : ms.toList = pre ++ '{' :: (name.toList ++ '}' :: suf))
    (hpre : ∀ c ∈ pre, c ≠ '{' ∧ c ≠ '}')
    (hname : ∀ c ∈ name.toList, c ≠ '{' ∧ c ≠ '}')
    (hne : name.toList ≠ [])
    (hdig : name.toList.all Char.isDigit = false)
    (hmiss : lookupKey m name = none) :
    pyFormat ms m = .error (.keyError name) := by
  unfold pyFormat
  rw [htempl]
  rw [show ("" : String) = ⟨[]⟩ from rfl, pyFormatAux_literal_prefix pre _ m [] hpre]
  obtain ⟨c0, cs0, hsplit⟩ : ∃ c0 cs0, name.toList = c0 :: cs0 := by
    cases h : name.toList with
    | nil => exact absurd h hne
    | cons c0 cs0 => exact ⟨c0, cs0, rfl⟩
  have h0 := hname c0 (by rw [hsplit]; simp)
  rw [hsplit]
  rw [show ('{' :: ((c0 :: cs0) ++ '}' :: suf)) =
        '{' :: (c0 :: (cs0 ++ '}' :: suf)) by simp]
  rw [pyFormatAux, if_pos rfl]
  rw [pyFormatAux, if_neg h0.1, if_neg h0.2]
  rw [pyFormatAux_inName cs0 [c0] suf m _
        (fun d hd => hname d (by rw [hsplit]; simp [hd]))]
  have hfull : ([c0].reverse ++ cs0) = name.toList := by rw [hsplit]; rfl
  rw [hfull]
  have hstr : (⟨name.toList⟩ : String) = name := rfl
  rw [hstr, hdig, hmiss]
  simp

/-! ### Concrete clients used by the closed theorems -/

/-- A client constructed with default channels `["ch"]`. -/
def demoClient : Roam :=
  { bot_name := "bot", bot_id := "id", image_url := "url", token := "tok",
    headers := baseHeaders "tok", channels := some ["ch"] }

/-- A client constructed with `channels=None` (no default channels). -/
def noDefaultsClient : Roam :=
  { bot_name := "bot", bot_id := "id", image_url := "url", token := "tok",
    headers := baseHeaders "tok", channels := none }

/-- A client constructed with default channels `["a", "b"]`. -/
def abDefaultsClient : Roam :=
  { bot_name := "bot", bot_id := "id", image_url := "url", token := "tok",
    headers := baseHeaders "tok", channels := some ["a", "b"] }

/-! ### Claim theorems -/

/-- C1: when the wrapped callable raises, the wrapper formats the failure
template over the invocation's keyword arguments plus the built-ins
(`func_name`, the recorded start time, `func_end_time = "DID NOT COMPLETE"`,
and the stringified exception), dispatches exactly that message through
`send_message` with the wrapper's configured channels, and re-raises the
original exception unchanged. -/
theorem notify_failure_sends_formatted_and_reraises
    (self : Roam) (message : String) (channels : Option (List String))
    (message_success : Option String) (fname : String)
    (func : List String → List (String × String) → Except PyErr String)
    (args : List String) (kwargs : List (String × String))
    (t0 t1 : String) (e : PyErr) (msg : String) (p : Payload)
    (hraise : func args kwargs = .error e)
    (hfmt : formatCall message kwargs (failBuiltins fname t0 e) = .ok msg)
    (hsend : send_message self msg channels = .ok p) :
    notifyRun self message channels message_success fname func args kwargs
      t0 t1 = ([p], .error e) := by
  simp only [notifyRun, notifyFail, hraise, hfmt, hsend]

/-- C1 witness: a callable raising `ValueError("boom")`, invoked with
`table="T"` under failure template `"\x7bfunc_name\x7d:\x7btable\x7d:\x7bfunc_exception\x7d"`, sends
`"f:T:boom"` to the configured channel and re-raises the `ValueError`. -/
theorem notify_failure_sends_formatted_and_reraises_witness :
    notifyRun demoClient "{func_name}:{table}:{func_exception}" none none "f"
      (fun _ _ => .error (.valueError "boom")) [] [("table", "T")] "t0" "t1"
      = ([{ sender_id := "id", sender_name := "bot", sender_imageUrl := "url",
            text := "f:T:boom", recipients := some ["ch"] }],
         .error (.valueError "boom")) :=
  notify_failure_sends_formatted_and_reraises demoClient
    "{func_name}:{table}:{func_exception}" none none "f"
    (fun _ _ => .error (.valueError "boom")) [] [("table", "T")] "t0" "t1"
    (.valueError "boom") "f:T:boom"
    { sender_id := "id", sender_name := "bot", sender_imageUrl := "url",
      text := "f:T:boom", recipients := some ["ch"] }
    rfl rfl rfl

/-- C2: the code raises `ValueError` when call-site channels are provided and
no default channels were configured, instead of using the call-site channels;
this closed statement evaluates `send_message` at that input. -/
theorem send_message_call_channels_no_defaults_raises :
    send_message noDefaultsClient "m" (some ["c"]) =
      .error (.valueError
        "No Channel passed at init or during message building.") := rfl

/-- C3: with no default channels and no call-site channels the code does not
raise; it issues the POST with `recipients` set to JSON `null`.  This closed
statement evaluates `send_message` at that input. -/
theorem send_message_both_absent_sends_null_recipients :
    send_message noDefaultsClient "m" none =
      .ok { sender_id := "id", sender_name := "bot", sender_imageUrl := "url",
            text := "m", recipients := none } := rfl

/-- C4: when the wrapped callable returns normally, no message is sent without
a success template and the return value passes through; with a success
template, the message formatted over the keyword arguments plus the success
built-ins (which bind `func_exception` to `"DID NOT FAIL"`) is sent and the
return value still passes through unchanged. -/
theorem notify_success_passthrough_and_did_not_fail
    (self : Roam) (message : String) (channels : Option (List String))
    (fname : String)
    (func : List String → List (String × String) → Except PyErr String)
    (args : List String) (kwargs : List (String × String))
    (t0 t1 : String) (val : String)
    (hret : func args kwargs = .ok val) :
    notifyRun self message channels none fname func args kwargs t0 t1
      = ([], .ok val)
    ∧ ∀ ms msg p,
        formatCall ms kwargs (succBuiltins fname t0 t1) = .ok msg →
        send_message self msg channels = .ok p →
        notifyRun self message channels (some ms) fname func args kwargs t0 t1
          = ([p], .ok val) := by
  constructor
  · simp only [notifyRun, hret]
  · intro ms msg p hfmt hsend
    simp only [notifyRun, hret, hfmt, hsend]

/-- C4 witness: a callable returning `"42"` with success template
`"\x7bfunc_exception\x7d"` sends the message `"DID NOT FAIL"` and still returns
`"42"`; with no success template nothing is sent and `"42"` is returned. -/
theorem notify_success_passthrough_and_did_not_fail_witness :
    notifyRun demoClient "fail" none none "f" (fun _ _ => .ok "42") [] []
      "t0" "t1" = ([], .ok "42")
    ∧ notifyRun demoClient "fail" none (some "{func_exception}") "f"
        (fun _ _ => .ok "42") [] [] "t0" "t1"
      = ([{ sender_id := "id", sender_name := "bot", sender_imageUrl := "url",
            text := "DID NOT FAIL", recipients := some ["ch"] }],
         .ok "42") :=
  ⟨(notify_success_passthrough_and_did_not_fail demoClient "fail" none "f"
      (fun _ _ => .ok "42") [] [] "t0" "t1" "42" rfl).1,
   (notify_success_passthrough_and_did_not_fail demoClient "fail" none "f"
      (fun _ _ => .ok "42") [] [] "t0" "t1" "42" rfl).2
     "{func_exception}" "DID NOT FAIL"
     { sender_id := "id", sender_name := "bot", sender_imageUrl := "url",
       text := "DID NOT FAIL", recipients := some ["ch"] }
     rfl rfl⟩

/-- C5: when both default channels and call-site channels are provided, the
send succeeds and the recipients placed in the payload are a duplicate-free
list whose elements are exactly the union of the two lists. -/
theorem send_message_merges_as_set (self : Roam) (message : String)
    (dc cc : List String) (hdef : self.channels = some dc) :
    ∃ p, send_message self message (some cc) = .ok p ∧
      ∃ recips, p.recipients = some recips ∧ recips.Nodup ∧
        ∀ x, x ∈ recips ↔ x ∈ dc ∨ x ∈ cc := by
  refine ⟨_, by rw [send_message, hdef], pySetList (dc ++ cc), rfl,
    nodup_pySetList _, fun x => ?_⟩
  rw [mem_pySetList, List.mem_append]

/-- C5 witness: defaults `["a", "b"]` with call-site `["b", "c"]` give a
duplicate-free recipient list whose elements are exactly
`\x7b"a", "b", "c"\x7d`. -/
theorem send_message_merges_as_set_witness :
    ∃ p, send_message abDefaultsClient "m" (some ["b", "c"]) = .ok p ∧
      ∃ recips, p.recipients = some recips ∧ recips.Nodup ∧
        ∀ x, x ∈ recips ↔ x ∈ ["a", "b"] ∨ x ∈ ["b", "c"] :=
  send_message_merges_as_set abDefaultsClient "m" ["a", "b"] ["b", "c"] rfl

/-- C6 counterexample: a tuple is a Python sequence type, yet construction
rejects it — the constructor accepts only `list`, so the claim that any
sequence type is accepted is false. -/
theorem init_rejects_tuple_sequence :
    isSequencePy (.pytuple ["a"]) = true ∧
    Roam.init "bot" "id" "url" "tok" none (.pytuple ["a"]) =
      .error (.valueError "Channels can only be passed as a list.") :=
  ⟨rfl, rfl⟩

/-- C6 amended: construction accepts the `channels` argument exactly when it
is a `list` (stored as the defaults) or `None` (meaning no defaults); every
other value — including non-list sequence types such as tuples and strings —
makes construction fail with
`ValueError("Channels can only be passed as a list.")`. -/
theorem init_accepts_only_list_or_none (bn bi iu tk : String)
    (hd : Option (List (String × String))) (ch : PyChannels) :
    (∀ xs, ch = .pylist xs →
      ∃ r, Roam.init bn bi iu tk hd ch = .ok r ∧ r.channels = some xs)
    ∧ (ch = .pynone →
      ∃ r, Roam.init bn bi iu tk hd ch = .ok r ∧ r.channels = none)
    ∧ ((∀ xs, ch ≠ .pylist xs) → ch ≠ .pynone →
      Roam.init bn bi iu tk hd ch =
        .error (.valueError "Channels can only be passed as a list.")) := by
  refine ⟨?_, ?_, ?_⟩
  · rintro xs rfl
    exact ⟨_, rfl, rfl⟩
  · rintro rfl
    exact ⟨_, rfl, rfl⟩
  · intro hnl hnn
    cases ch with
    | pynone => exact absurd rfl hnn
    | pylist xs => exact absurd rfl (hnl xs)
    | pytuple xs => rfl
    | pystr s => rfl
    | pyint n => rfl

/-- C6 amended witness: a string (also a sequence) is rejected, while a list
is accepted and stored as the default channels. -/
theorem init_accepts_only_list_or_none_witness :
    Roam.init "bot" "id" "url" "tok" none (.pystr "abc") =
      .error (.valueError "Channels can only be passed as a list.")
    ∧ ∃ r, Roam.init "bot" "id" "url" "tok" none (.pylist ["x"]) = .ok r ∧
        r.channels = some ["x"] :=
  ⟨(init_accepts_only_list_or_none "bot" "id" "url" "tok" none
      (.pystr "abc")).2.2 (fun _ h => PyChannels.noConfusion h)
      (fun h => PyChannels.noConfusion h),
   (init_accepts_only_list_or_none "bot" "id" "url" "tok" none
      (.pylist ["x"])).1 ["x"] rfl⟩

/-- C7: only keyword arguments are merged into the formatting context, so a
template whose replacement field names a parameter the caller passed
positionally (any name absent from the keyword arguments and from the
built-ins) makes the wrapped call raise `KeyError` on that name even though
the callable itself returned normally; only the failure notification is
sent before the error propagates. -/
theorem notify_positional_not_substitutable
    (self : Roam) (message : String) (channels : Option (List String))
    (fname name ms : String) (pre suf : List Char)
    (func : List String → List (String × String) → Except PyErr String)
    (args : List String) (kwargs : List (String × String))
    (t0 t1 : String) (val fmsg : String) (p : Payload)
    (hok : func args kwargs = .ok val)
    (htempl : ms.toList = pre ++ '{' :: (name.toList ++ '}' :: suf))
    (hpre : ∀ c ∈ pre, c ≠ '{' ∧ c ≠ '}')
    (hname : ∀ c ∈ name.toList, c ≠ '{' ∧ c ≠ '}')
    (hne : name.toList ≠ [])
    (hdig : name.toList.all Char.isDigit = false)
    (hkw : lookupKey kwargs name = none)
    (hnb : lookupKey (succBuiltins fname t0 t1) name = none)
    (hnocol : kwCollision kwargs (succBuiltins fname t0 t1) = false)
    (hffmt : formatCall message kwargs
      (failBuiltins fname t0 (.keyError name)) = .ok fmsg)
    (hfsend : send_message self fmsg channels = .ok p) :
    notifyRun self message channels (some ms) fname func args kwargs t0 t1
      = ([p], .error (.keyError name)) := by
  have hmiss : lookupKey (kwargs ++ succBuiltins fname t0 t1) name = none :=
    lookupKey_append_none _ _ _ hkw hnb
  have hfmt : formatCall ms kwargs (succBuiltins fname t0 t1) =
      .error (.keyError name) := by
    rw [formatCall, hnocol, if_neg (by simp)]
    exact pyFormat_missing_name ms name pre suf _ htempl hpre hname hne
      hdig hmiss
  simp only [notifyRun, notifyFail, hok, hfmt, hffmt, hfsend]

/-- C7 witness: `f` called with the single positional argument `"T"` returns
normally, but the success template `"\x7btable\x7d"` cannot substitute it; the
wrapper sends the failure notification and raises `KeyError("table")`. -/
theorem notify_positional_not_substitutable_witness :
    notifyRun demoClient "failmsg" none (some "{table}") "f"
      (fun a _ => .ok (String.join a)) ["T"] [] "t0" "t1"
      = ([{ sender_id := "id", sender_name := "bot", sender_imageUrl := "url",
            text := "failmsg", recipients := some ["ch"] }],
         .error (.keyError "table")) :=
  notify_positional_not_substitutable demoClient "failmsg" none "f" "table"
    "{table}" [] []
    (fun a _ => .ok (String.join a)) ["T"] [] "t0" "t1" "T" "failmsg"
    { sender_id := "id", sender_name := "bot", sender_imageUrl := "url",
      text := "failmsg", recipients := some ["ch"] }
    rfl rfl (by simp) (by decide) (by decide) (by decide) rfl rfl rfl rfl rfl

/-- C8: `list_channels` on a decoded body that is not a JSON array raises
`ValueError("Unexpected Response from Roam Server")`; on an array of objects
it returns one record per element with the fields copied verbatim. -/
theorem list_channels_shape (body : Json) :
    ((∀ elems, body ≠ .arr elems) →
      list_channels body =
        .error (.valueError "Unexpected Response from Roam Server"))
    ∧ (∀ fieldss, body = .arr (fieldss.map Json.obj) →
      list_channels body = .ok fieldss) := by
  constructor
  · intro hna
    cases body with
    | arr elems => exact absurd rfl (hna elems)
    | null => rfl
    | bool b => rfl
    | num n => rfl
    | str s => rfl
    | obj fields => rfl
  · rintro fieldss rfl
    exact roamGroupsOf_obj fieldss

/-- C8 witness: a two-element array of objects yields exactly those two
records verbatim; the object body with an `error` field raises. -/
theorem list_channels_shape_witness :
    list_channels (.arr [.obj [("name", .str "general")],
                         .obj [("name", .str "random"), ("roamId", .num 2)]])
      = .ok [[("name", .str "general")],
             [("name", .str "random"), ("roamId", .num 2)]]
    ∧ list_channels (.obj [("error", .str "x")]) =
        .error (.valueError "Unexpected Response from Roam Server") :=
  ⟨(list_channels_shape _).2
      [[("name", .str "general")],
       [("name", .str "random"), ("roamId", .num 2)]] rfl,
   (list_channels_shape _).1 (fun _ h => Json.noConfusion h)⟩

/-- C9: `test_connection` returns `true` exactly when the decoded object's
`status` field is the string `"ok"`; in particular `"fail"` and a missing
field both give `false`. -/
theorem test_connection_iff_status_ok :
    (∀ resp, test_connection resp = true ↔
      lookupJson resp "status" = some (.str "ok"))
    ∧ test_connection [("status", .str "ok")] = true
    ∧ test_connection [("status", .str "fail")] = false
    ∧ test_connection [] = false := by
  refine ⟨fun resp => ?_, rfl, rfl, rfl⟩
  rw [test_connection]
  cases h : lookupJson resp "status" with
  | none => simp
  | some v => cases v <;> simp [pyEqStrOk]

/-- C10: a client constructed with an empty list of default channels treats
them as present: a send that supplies call-site channels succeeds (the merge
branch is taken, not the error branch) and the recipients are exactly the
call-site channels with duplicates collapsed. -/
theorem empty_defaults_count_as_present (bn bi iu tk : String)
    (hd : Option (List (String × String))) (r : Roam)
    (message : String) (cs : List String)
    (hinit : Roam.init bn bi iu tk hd (.pylist []) = .ok r) :
    ∃ p, send_message r message (some cs) = .ok p ∧
      ∃ recips, p.recipients = some recips ∧ recips.Nodup ∧
        ∀ x, x ∈ recips ↔ x ∈ cs := by
  have hch : r.channels = some [] := by
    simp only [Roam.init, Except.ok.injEq] at hinit
    subst hinit
    rfl
  refine ⟨_, by rw [send_message, hch], pySetList ([] ++ cs), rfl,
    nodup_pySetList _, fun x => ?_⟩
  rw [mem_pySetList]
  simp

/-- C10 witness: a client built with `channels=[]` sends to call-site
channels `["c", "c", "d"]` with the duplicate-free recipient set
`\x7b"c", "d"\x7d`. -/
theorem empty_defaults_count_as_present_witness :
    ∃ p, send_message
        { bot_name := "bot", bot_id := "id", image_url := "url",
          token := "tok", headers := baseHeaders "tok", channels := some [] }
        "m" (some ["c", "c", "d"]) = .ok p ∧
      ∃ recips, p.recipients = some recips ∧ recips.Nodup ∧
        ∀ x, x ∈ recips ↔ x ∈ ["c", "c", "d"] :=
  empty_defaults_count_as_present "bot" "id" "url" "tok" none _ "m"
    ["c", "c", "d"] rfl

end RoamSpec
